import Mathlib

/-!
Verification of the AI-assistant command pipeline
(`src/command_processor.py`, `src/task_executor.py`, `src/brain.py`,
`src/memory_manager.py`) against its natural-language specification.

The Python code is shallowly embedded: string/regex processing is made
explicit over `List Char`, Python `float` arithmetic on the small decimal
constants of the source is represented exactly by `ℚ`, mutable objects are
passed as explicit state records, OS/network collaborators are fields of an
explicit environment record, and wall-clock values (`datetime.now()`,
durations) are explicit parameters or omitted where no property reads them.
-/

namespace AiAssistant

/-! ### Basic string utilities (Python `str` operations used by the code) -/

/-- Python `\w` on the ASCII text this assistant processes: letters, digits, underscore. -/
def isWordChar (c : Char) : Bool := c.isAlpha || c.isDigit || c = '_'

/-- Python `\s` (ASCII whitespace; the inputs contain no exotic whitespace). -/
def isSpaceChar (c : Char) : Bool := c = ' ' || c = '\t' || c = '\n' || c = '\r'

/-- Python `str.lower` (ASCII). -/
def pyLower (s : String) : String := String.mk (s.data.map Char.toLower)

/-- Python `str.strip` with no arguments. -/
def pyStrip (s : String) : String :=
  String.mk (((s.data.dropWhile isSpaceChar).reverse.dropWhile isSpaceChar).reverse)

/-- Accumulator pass of Python `str.split()`: `acc` holds the reversed
characters of the word being read. -/
def splitWsAux : List Char → List Char → List String
  | [], acc => if acc = [] then [] else [String.mk acc.reverse]
  | c :: cs, acc =>
    if isSpaceChar c then
      if acc = [] then splitWsAux cs [] else String.mk acc.reverse :: splitWsAux cs []
    else splitWsAux cs (c :: acc)

/-- Python `str.split()` with no arguments: split on whitespace runs, no empty parts. -/
def pySplitWs (s : String) : List String := splitWsAux s.data []

/-- Python `sub in s` (substring containment). -/
def listInfix (pat s : List Char) : Bool :=
  match s with
  | [] => pat.isEmpty
  | _ :: tl => pat.isPrefixOf s || listInfix pat tl

def strContains (s sub : String) : Bool := listInfix sub.data s.data

/-- Python `" ".join(l)`. -/
def joinSpace (l : List String) : String := String.intercalate " " l

/-- Python `s.replace(' ', '+')` (single-character replacement). -/
def replaceSpacePlus (s : String) : String :=
  String.mk (s.data.map (fun c => if c = ' ' then '+' else c))

/-! ### A Python-`re` fragment

The repository only uses: literal characters, `.` (no newline), `\w`, `\d`,
`[^\s]`, alternation, concatenation, greedy `*` and `+`, and the word
boundary `\b`.  The matcher below implements Python's leftmost, backtracking
semantics (alternatives in written order, greedy repetition) in
continuation-passing style; `re.findall` is repeated non-overlapping
leftmost search.  Groups never affect match spans, so capturing groups are
not represented; where the code only uses `len(matches)` or the matched
text this is observationally identical. -/

inductive RAtom : Type
  | lit (c : Char)
  | anyDot
  | wordc
  | digitc
  | nonSpace
deriving Repr, DecidableEq

inductive Regex : Type
  | eps
  | atom (a : RAtom)
  | seq (r s : Regex)
  | alt (r s : Regex)
  | star (r : Regex)
  | wb
deriving Repr, DecidableEq

def matchAtom : RAtom → Char → Bool
  | .lit c, d => c = d
  | .anyDot, d => d ≠ '\n'
  | .wordc, d => isWordChar d
  | .digitc, d => d.isDigit
  | .nonSpace, d => !(isSpaceChar d)

def wordAt (s : List Char) (i : Nat) : Bool :=
  match s.get? i with
  | some c => isWordChar c
  | none => false

/-- `\b` holds at position `i` iff exactly one side is a word character. -/
def boundary (s : List Char) (i : Nat) : Bool :=
  (if i = 0 then false else wordAt s (i - 1)) != wordAt s i

/-- Backtracking matcher; the fuel bounds one backtracking path and is chosen
large enough that it is never exhausted on the patterns and inputs evaluated
in this development (semantics of a sufficient-fuel run match Python `re`). -/
def mf : Nat → Regex → List Char → Nat → (Nat → Option Nat) → Option Nat
  | 0, _, _, _, _ => none
  | fuel + 1, r, s, i, k =>
    match r with
    | .eps => k i
    | .atom a =>
      match s.get? i with
      | some c => if matchAtom a c then k (i + 1) else none
      | none => none
    | .seq r1 r2 => mf fuel r1 s i (fun j => mf fuel r2 s j k)
    | .alt r1 r2 => (mf fuel r1 s i k) <|> (mf fuel r2 s i k)
    | .wb => if boundary s i then k i else none
    | .star r1 =>
      (mf fuel r1 s i (fun j => if j ≤ i then none else mf fuel (.star r1) s j k)) <|> k i

def rsize : Regex → Nat
  | .eps => 1
  | .atom _ => 1
  | .seq a b => rsize a + rsize b + 1
  | .alt a b => rsize a + rsize b + 1
  | .star r => rsize r + 1
  | .wb => 1

def fuelFor (r : Regex) (s : List Char) : Nat := (rsize r + 2) * (s.length + 2) + 64

/-- End of the leftmost match attempt of `r` at position `i` (Python priority order). -/
def matchEndAt (r : Regex) (s : List Char) (i : Nat) : Option Nat :=
  mf (fuelFor r s) r s i some

/-- Python `re.findall`: scan left to right, restarting after each
non-overlapping match (advance one position on a zero-width match). -/
def findallSpans (r : Regex) (s : List Char) : List (Nat × Nat) :=
  go (s.length + 1) 0
where
  go : Nat → Nat → List (Nat × Nat)
    | 0, _ => []
    | fuel + 1, i =>
      if i > s.length then []
      else
        match matchEndAt r s i with
        | some e => if e > i then (i, e) :: go fuel e else (i, e) :: go fuel (i + 1)
        | none => go fuel (i + 1)

def spanStr (s : List Char) (p : Nat × Nat) : String :=
  String.mk ((s.drop p.1).take (p.2 - p.1))

/-- Matched substrings of `re.findall(pattern, s)`. -/
def reFindall (r : Regex) (s : String) : List String :=
  (findallSpans r s.data).map (spanStr s.data)

/-- `len(re.findall(pattern, s))`; for patterns with groups Python returns
group tuples, but the length is the number of matches either way. -/
def reCount (r : Regex) (s : String) : Nat := (findallSpans r s.data).length

/-! Regex construction helpers (ASTs for the source's pattern strings). -/

def rstr (w : String) : Regex := w.data.foldr (fun c acc => .seq (.atom (.lit c)) acc) .eps

def ralts : List String → Regex
  | [] => .eps
  | [w] => rstr w
  | w :: ws => .alt (rstr w) (ralts ws)

def rseqs : List Regex → Regex
  | [] => .eps
  | [r] => r
  | r :: rs => .seq r (rseqs rs)

def rplus (r : Regex) : Regex := .seq r (.star r)

def dotStar : Regex := .star (.atom .anyDot)

def ropt (r : Regex) : Regex := .alt r .eps

/-! ### `CommandProcessor.intent_patterns`

One AST per regex string, in source order.  `re.IGNORECASE` is passed by
`_detect_intents`, but the command has already been lowercased by
`understand`, so matching lowercase literals is exact. -/

def patFile1 : Regex := rseqs [.wb,
  ralts ["create", "make", "new", "open", "read", "write", "save", "delete", "remove",
    "copy", "move", "rename"], .wb, dotStar, .wb,
  ralts ["file", "document", "folder", "directory"], .wb]

def patFile2 : Regex := rseqs [.wb, ralts ["create", "make", "new"], .wb, dotStar, .wb,
  .seq (.atom (.lit '.')) (rplus (.atom .wordc)), .wb]

def patFile3 : Regex := rseqs [.wb, ralts ["open", "read", "view"], .wb, dotStar, .wb,
  .seq (.atom (.lit '.')) (rplus (.atom .wordc)), .wb]

def patWeb1 : Regex := rseqs [.wb, ralts ["search", "find", "look up", "google"], .wb,
  dotStar, .wb, ralts ["for", "about"], .wb]

def patWeb2 : Regex := rseqs [.wb, ralts ["open", "go to", "visit", "navigate"], .wb,
  dotStar, .wb, ralts ["website", "url", "link", "page"], .wb]

def patWeb3 : Regex := rseqs [.wb, ralts ["download", "get", "fetch"], .wb, dotStar, .wb,
  ralts ["from", "from the web"], .wb]

def patSys1 : Regex := rseqs [.wb, ralts ["install", "uninstall", "update", "upgrade"], .wb,
  dotStar, .wb, ralts ["package", "software", "program"], .wb]

def patSys2 : Regex := rseqs [.wb, ralts ["run", "execute", "start", "launch"], .wb,
  dotStar, .wb, ralts ["program", "application", "script"], .wb]

def patSys3 : Regex := rseqs [.wb, ralts ["check", "monitor", "status"], .wb, dotStar, .wb,
  ralts ["system", "computer", "memory", "cpu"], .wb]

def patData1 : Regex := rseqs [.wb, ralts ["analyze", "process", "calculate", "compute"], .wb,
  dotStar, .wb, ralts ["data", "information", "numbers"], .wb]

def patData2 : Regex := rseqs [.wb, ralts ["convert", "transform", "format"], .wb, dotStar,
  .wb, ralts ["data", "file", "format"], .wb]

def patData3 : Regex := rseqs [.wb, ralts ["backup", "export", "import"], .wb, dotStar, .wb,
  ralts ["data", "files", "database"], .wb]

def patComm1 : Regex := rseqs [.wb, ralts ["send", "write", "compose"], .wb, dotStar, .wb,
  ralts ["email", "message", "text"], .wb]

def patComm2 : Regex := rseqs [.wb, ralts ["call", "phone", "dial"], .wb, dotStar, .wb,
  ralts ["someone", "person", "number"], .wb]

def patComm3 : Regex := rseqs [.wb, ralts ["meeting", "schedule", "appointment"], .wb]

def patInfo1 : Regex := rseqs [.wb, ralts ["what", "how", "when", "where", "why", "who"],
  .wb, dotStar, .wb, ralts ["is", "are", "was", "were", "will", "can"], .wb]

def patInfo2 : Regex := rseqs [.wb, ralts ["tell me", "explain", "describe", "show me"], .wb]

def patInfo3 : Regex := rseqs [.wb, ralts ["find out", "discover", "learn about"], .wb]

def patAuto1 : Regex := rseqs [.wb, ralts ["automate", "schedule", "repeat", "loop"], .wb]

def patAuto2 : Regex := rseqs [.wb, ralts ["set up", "configure", "setup"], .wb, dotStar,
  .wb, ralts ["automation", "task", "job"], .wb]

def patAuto3 : Regex := rseqs [.wb, ralts ["remind", "alert", "notify"], .wb, dotStar, .wb,
  ralts ["when", "if", "about"], .wb]

/-- `self.intent_patterns`, in dict insertion order; each pattern is paired
with its source regex string (the value stored in the intent's
`pattern` field). -/
def intentPatterns : List (String × List (String × Regex)) :=
  [("file_operations",
    [("r1-verb-object", patFile1), ("r2-create-ext", patFile2), ("r3-open-ext", patFile3)]),
   ("web_operations",
    [("r1-search-for", patWeb1), ("r2-open-site", patWeb2), ("r3-download", patWeb3)]),
   ("system_operations",
    [("r1-install", patSys1), ("r2-run", patSys2), ("r3-check", patSys3)]),
   ("data_operations",
    [("r1-analyze", patData1), ("r2-convert", patData2), ("r3-backup", patData3)]),
   ("communication",
    [("r1-email", patComm1), ("r2-call", patComm2), ("r3-meeting", patComm3)]),
   ("information_gathering",
    [("r1-question", patInfo1), ("r2-tell", patInfo2), ("r3-findout", patInfo3)]),
   ("automation",
    [("r1-automate", patAuto1), ("r2-setup", patAuto2), ("r3-remind", patAuto3)])]

/-! ### Entity extraction patterns (`CommandProcessor._extract_entities`) -/

def patFileEntity : Regex :=
  rseqs [.wb, rplus (.atom .wordc), .atom (.lit '.'), rplus (.atom .wordc), .wb]

def patUrlEntity : Regex :=
  rseqs [rstr "http", ropt (.atom (.lit 's')), rstr "://", rplus (.atom .nonSpace)]

def patProgramEntity : Regex :=
  rseqs [.wb, ralts ["python", "java", "node", "npm", "pip", "git", "docker"], .wb]

def patNumberEntity : Regex := rseqs [.wb, rplus (.atom .digitc), .wb]

def patTimeEntity : Regex :=
  rseqs [.wb,
    ralts ["today", "tomorrow", "next week"] |>.alt
      (rseqs [rstr "in ", rplus (.atom .digitc), rstr " ", ralts ["hours", "days", "weeks"]]),
    .wb]

/-- `_extract_entities` stopword list. -/
def keywordStopwords : List String :=
  ["with", "from", "into", "that", "this", "they", "have", "will", "been", "were"]

structure Entities where
  files : List String := []
  urls : List String := []
  programs : List String := []
  keywords : List String := []
  numbers : List String := []
  timeExpressions : List String := []
deriving Repr, DecidableEq

instance : Inhabited Entities := ⟨{}⟩

/-- `CommandProcessor._extract_entities` (pure single-pass scans).
For `time_expressions` Python `findall` returns group tuples; the full
matched phrase is recorded here instead — no other code reads the field
apart from `_create_reminder`, which only stringifies the first element. -/
def extractEntities (command : String) : Entities :=
  { files := reFindall patFileEntity command
    urls := reFindall patUrlEntity command
    programs := reFindall patProgramEntity command
    numbers := reFindall patNumberEntity command
    timeExpressions := reFindall patTimeEntity command
    keywords :=
      ((pySplitWs command).filter
        (fun w => w.length > 3 && !(keywordStopwords.contains w))).take 5 }

/-! ### Intents and `_detect_intents` -/

/-- One detected-intent dict.  `matchCount` is `len(matches)`; the matched
group tuples themselves are read nowhere downstream.  Rule intents carry no
`learned` key, which reads as `False`. -/
structure Intent where
  itype : String
  pattern : String
  matchCount : Nat
  confidence : ℚ
  learned : Bool := false
deriving Repr, DecidableEq

/-- The part of a `learned_patterns` table entry that `_detect_intents`
reads (`type` and `confidence`; the stored entities/timestamp are unread). -/
structure LearnedInfo where
  itype : String
  confidence : ℚ
deriving Repr, DecidableEq

/-- `CommandProcessor._detect_intents`: one intent per matching rule
(confidence = number of regex matches / number of rules of the category),
then one low-confidence intent per learned key phrase contained in the
command. -/
def detectIntents (learnedPatterns : List (String × LearnedInfo)) (command : String) :
    List Intent :=
  (intentPatterns.flatMap (fun cp =>
    cp.2.filterMap (fun pr =>
      if reCount pr.2 command ≠ 0 then
        some { itype := cp.1, pattern := pr.1, matchCount := reCount pr.2 command,
               confidence := (reCount pr.2 command : ℚ) / (cp.2.length : ℚ) }
      else none))) ++
  (learnedPatterns.filterMap (fun kv =>
    if strContains (pyLower command) (pyLower kv.1) then
      some { itype := kv.2.itype, pattern := kv.1, matchCount := 1,
             confidence := kv.2.confidence, learned := true }
    else none))

/-- `CommandProcessor._calculate_confidence`. -/
def calculateConfidence (intents : List Intent) (entities : Entities) : ℚ :=
  match intents with
  | [] => 0
  | i0 :: rest =>
    let maxIntentConfidence := rest.foldl (fun a i => max a i.confidence) i0.confidence
    let entityBonus : ℚ :=
      (if entities.files ≠ [] then (1 : ℚ) / 10 else 0) +
      (if entities.urls ≠ [] then (1 : ℚ) / 10 else 0) +
      (if entities.programs ≠ [] then (1 : ℚ) / 10 else 0) +
      (if entities.keywords ≠ [] then
        (1 : ℚ) / 20 * (entities.keywords.length : ℚ) else 0)
    min 1 (maxIntentConfidence + entityBonus)

/-- The understanding record.  The `timestamp` and `context` fields
(time of day, recent-command echo) are wall-clock snapshots read by no
claim and are omitted. -/
structure Understanding where
  originalCommand : String
  normalizedCommand : String
  intents : List Intent
  entities : Entities
  confidence : ℚ
deriving Repr, DecidableEq

/-- `CommandProcessor.understand`. -/
def understand (learnedPatterns : List (String × LearnedInfo)) (command : String) :
    Understanding :=
  let commandLower := pyLower (pyStrip command)
  let intents := detectIntents learnedPatterns commandLower
  let entities := extractEntities commandLower
  { originalCommand := command
    normalizedCommand := commandLower
    intents := intents
    entities := entities
    confidence := calculateConfidence intents entities }

/-! ### Task templates and task detection -/

structure TaskTemplate where
  name : String
  action : String
  priority : Nat
  complexity : Nat
  estimatedTime : Nat
  canParallel : Bool
deriving Repr, DecidableEq

/-- `self.task_templates`, in dict insertion order. -/
def taskTemplates : List (String × List (String × TaskTemplate)) :=
  [("file_operations",
    [("create_file", ⟨"Create File", "file_creation", 3, 1, 2, true⟩),
     ("open_file", ⟨"Open File", "file_opening", 2, 1, 1, true⟩),
     ("delete_file", ⟨"Delete File", "file_deletion", 4, 1, 1, true⟩)]),
   ("web_operations",
    [("web_search", ⟨"Web Search", "web_search", 2, 2, 5, true⟩),
     ("open_website", ⟨"Open Website", "website_opening", 2, 1, 3, true⟩),
     ("download_file", ⟨"Download File", "file_download", 3, 2, 10, true⟩)]),
   ("system_operations",
    [("install_package", ⟨"Install Package", "package_installation", 4, 3, 30, false⟩),
     ("run_program", ⟨"Run Program", "program_execution", 3, 2, 5, true⟩),
     ("system_check", ⟨"System Check", "system_monitoring", 1, 2, 8, true⟩)]),
   ("data_operations",
    [("analyze_data", ⟨"Analyze Data", "data_analysis", 3, 4, 60, true⟩),
     ("convert_data", ⟨"Convert Data", "data_conversion", 2, 2, 15, true⟩),
     ("backup_data", ⟨"Backup Data", "data_backup", 4, 2, 45, true⟩)]),
   ("communication",
    [("send_email", ⟨"Send Email", "email_sending", 3, 2, 10, true⟩),
     ("schedule_meeting", ⟨"Schedule Meeting", "meeting_scheduling", 3, 3, 15, true⟩)]),
   ("information_gathering",
    [("search_info", ⟨"Search Information", "information_search", 2, 2, 8, true⟩),
     ("explain_topic", ⟨"Explain Topic", "topic_explanation", 2, 3, 12, true⟩)]),
   ("automation",
    [("setup_automation", ⟨"Setup Automation", "automation_setup", 4, 4, 120, false⟩),
     ("create_reminder", ⟨"Create Reminder", "reminder_creation", 2, 1, 3, true⟩)])]

def templateCatalog (itype : String) : Option (List (String × TaskTemplate)) :=
  (taskTemplates.find? (fun cp => cp.1 = itype)).map (·.2)

def catalogGet (cat : List (String × TaskTemplate)) (key : String) : Option TaskTemplate :=
  (cat.find? (fun kt => kt.1 = key)).map (·.2)

/-- `CommandProcessor._select_best_task`: per-category decision table over the
entity fields of the understanding.  (`possible_tasks[key]` lookups cannot
fail on the static catalog; the `Option` mirrors Python dict access.) -/
def selectBestTask (intentType : String) (u : Understanding) : Option TaskTemplate :=
  match templateCatalog intentType with
  | none => none
  | some possibleTasks =>
    if intentType = "file_operations" then
      if u.entities.files ≠ [] then catalogGet possibleTasks "open_file"
      else catalogGet possibleTasks "create_file"
    else if intentType = "web_operations" then
      if u.entities.urls ≠ [] then catalogGet possibleTasks "open_website"
      else catalogGet possibleTasks "web_search"
    else if intentType = "system_operations" then
      if u.entities.programs ≠ [] then catalogGet possibleTasks "run_program"
      else catalogGet possibleTasks "system_check"
    else if intentType = "data_operations" then catalogGet possibleTasks "analyze_data"
    else if intentType = "communication" then catalogGet possibleTasks "send_email"
    else if intentType = "information_gathering" then catalogGet possibleTasks "search_info"
    else if intentType = "automation" then catalogGet possibleTasks "create_reminder"
    else (possibleTasks.head?).map (·.2)

/-- One detected-task dict: the selected template plus the runtime context
attached by `detect_tasks` (the wall-clock `timestamp` and `context`
snapshot are omitted as for `Understanding`). -/
structure Task where
  name : String
  action : String
  priority : Nat
  complexity : Nat
  estimatedTime : Nat
  canParallel : Bool
  intent : Option Intent := none
  entities : Entities := {}
  confidence : ℚ := 0
deriving Repr, DecidableEq

def Task.ofTemplate (t : TaskTemplate) (i : Intent) (u : Understanding) : Task :=
  { name := t.name, action := t.action, priority := t.priority,
    complexity := t.complexity, estimatedTime := t.estimatedTime,
    canParallel := t.canParallel, intent := some i, entities := u.entities,
    confidence := i.confidence }

/-- The task list built by `detect_tasks` before its final sort: one task per
detected intent whose category is in the template table. -/
def detectTasksUnsorted (u : Understanding) : List Task :=
  u.intents.filterMap (fun i =>
    if (taskTemplates.map (·.1)).contains i.itype then
      (selectBestTask i.itype u).map (fun t => Task.ofTemplate t i u)
    else none)

/-! Python `list.sort(key=..., reverse=True)` / `sorted(key=..., reverse=True)`
is a stable sort; among equal keys the original order is kept even with
`reverse=True`.  The insertion sort below computes exactly that unique
stable descending ordering (an earlier element passes over a later one only
when its key is strictly smaller). -/

def pyInsertDesc (key : α → Nat) (x : α) : List α → List α
  | [] => [x]
  | y :: ys => if key y ≤ key x then x :: y :: ys else y :: pyInsertDesc key x ys

def pySortedDesc (key : α → Nat) : List α → List α
  | [] => []
  | x :: xs => pyInsertDesc key x (pySortedDesc key xs)

/-- `CommandProcessor.detect_tasks`: one task per intent, then
`tasks.sort(key=priority, reverse=True)`. -/
def detectTasks (u : Understanding) : List Task :=
  pySortedDesc (·.priority) (detectTasksUnsorted u)

/-- `CommandProcessor.learn_pattern`: store the first-two-words key phrase
with the first intent's type and the understanding's confidence, and append
the raw command to the 100-capped context memory.  Dict assignment updates
in place or appends. -/
def assocSet (l : List (String × LearnedInfo)) (k : String) (v : LearnedInfo) :
    List (String × LearnedInfo) :=
  if l.any (fun kv => kv.1 = k) then
    l.map (fun kv => if kv.1 = k then (k, v) else kv)
  else l ++ [(k, v)]

def learnPattern (learnedPatterns : List (String × LearnedInfo))
    (contextMemory : List String) (command : String) (u : Understanding) :
    List (String × LearnedInfo) × List String :=
  let ws := pySplitWs (pyLower command)
  let learned :=
    match ws with
    | w0 :: w1 :: _ =>
      assocSet learnedPatterns (w0 ++ " " ++ w1)
        { itype := match u.intents with | i :: _ => i.itype | [] => "unknown"
          confidence := u.confidence }
    | _ => learnedPatterns
  let ctx := contextMemory ++ [command]
  (learned, if ctx.length > 100 then ctx.tail else ctx)

/-! ### `TaskExecutor`

Handlers perform OS / network side effects.  They are embedded as pure
functions over an explicit environment `Env` whose fields stand for the
external collaborators (filesystem, pip, subprocess, psutil, HTTP client);
a raised exception becomes `Except.error` carrying the exception's message.
Wall-clock data (task ids, start/end timestamps, durations, timestamped
default filenames) is omitted; no claim reads it. -/

inductive PipOutcome : Type
  | ok (stdout : String)
  | fail (stderr : String)
  | timeout
deriving Repr

inductive ProcOutcome : Type
  | ok (returncode : Int) (stdout stderr : String)
  | timeout
  | oserror (msg : String)
deriving Repr

structure Env where
  files : List String := []
  cwd : String := ""
  fileSize : String → Nat := fun _ => 0
  download : String → Except String Nat := fun _ => .error "network unavailable"
  pipInstall : String → PipOutcome := fun _ => .timeout
  runProc : String → ProcOutcome := fun _ => .timeout
  sysinfo : List (String × String) := []

/-- A handler's structured payload: the key/value dict it returns
(numeric values stringified). -/
abbrev TaskOutput := List (String × String)

def TaskOutput.get (o : TaskOutput) (k : String) : Option String :=
  (o.find? (fun kv => kv.1 = k)).map (·.2)

abbrev Handler := Env → Task → Except String (TaskOutput × Env)

def quoted (s : String) : String := "\x27" ++ s ++ "\x27"

/-- `TaskExecutor._create_file`.  When no file entity is present the source
generates `new_file_<epoch>.txt`; the epoch suffix is elided.  The `size`
key (byte count of the timestamp-bearing header it writes) is wall-clock
data and is omitted. -/
def createFileH : Handler := fun env task =>
  let filename := match task.entities.files with
    | f :: _ => f
    | [] => "new_file.txt"
  .ok ([("filename", filename), ("path", env.cwd ++ "/" ++ filename),
        ("message", "File " ++ quoted filename ++ " created successfully")],
       { env with files := env.files ++ [filename] })

/-- `TaskExecutor._open_file` (opening with the system application is a
fire-and-forget collaborator call whose result the source never checks). -/
def openFileH : Handler := fun env task =>
  match task.entities.files with
  | [] => .error "No file specified to open"
  | filename :: _ =>
    if env.files.contains filename then
      .ok ([("filename", filename), ("path", env.cwd ++ "/" ++ filename),
            ("message", "File " ++ quoted filename ++ " opened successfully")], env)
    else
      .error ("Failed to open file: File " ++ quoted filename ++ " does not exist")

/-- `TaskExecutor._delete_file`. -/
def deleteFileH : Handler := fun env task =>
  match task.entities.files with
  | [] => .error "No file specified to delete"
  | filename :: _ =>
    if env.files.contains filename then
      .ok ([("filename", filename),
            ("message", "File " ++ quoted filename ++ " deleted successfully")],
           { env with files := env.files.filter (fun f => f ≠ filename) })
    else
      .error ("Failed to delete file: File " ++ quoted filename ++ " does not exist")

/-- `TaskExecutor._web_search` (`webbrowser.open` returns a boolean and is
effectively non-raising, so the defensive `except` around it never fires). -/
def webSearchH : Handler := fun env task =>
  match task.entities.keywords with
  | [] => .error "No search terms provided"
  | keywords =>
    let searchQuery := joinSpace keywords
    let searchUrl := "https://www.google.com/search?q=" ++ replaceSpacePlus searchQuery
    .ok ([("search_query", searchQuery), ("search_url", searchUrl),
          ("message", "Web search for " ++ quoted searchQuery ++ " opened in browser")],
         env)

/-- `TaskExecutor._open_website`. -/
def openWebsiteH : Handler := fun env task =>
  match task.entities.urls with
  | [] => .error "No URL provided"
  | url :: _ =>
    .ok ([("url", url),
          ("message", "Website " ++ quoted url ++ " opened in browser")], env)

/-- `TaskExecutor._download_file` (`url.split('/')[-1] or <timestamped
default>`; the epoch suffix of the default is elided). -/
def downloadFileH : Handler := fun env task =>
  match task.entities.urls with
  | [] => .error "No URL provided for download"
  | url :: _ =>
    match env.download url with
    | .error e => .error ("Failed to download file: " ++ e)
    | .ok size =>
      let lastSeg := ((url.splitOn "/").getLastD "")
      let filename := if lastSeg = "" then "downloaded_file" else lastSeg
      .ok ([("url", url), ("filename", filename), ("size", toString size),
            ("message", "File downloaded successfully: " ++ filename)],
           { env with files := env.files ++ [filename] })

/-- `TaskExecutor._install_package` (inner `raise` on a nonzero return code
is rewrapped by the handler's own `except Exception` clause). -/
def installPackageH : Handler := fun env task =>
  match task.entities.keywords with
  | [] => .error "No package name provided"
  | packageName :: _ =>
    match env.pipInstall packageName with
    | .ok stdout =>
      .ok ([("package", packageName), ("output", stdout),
            ("message", "Package " ++ quoted packageName ++ " installed successfully")],
           env)
    | .fail stderr => .error ("Failed to install package: Installation failed: " ++ stderr)
    | .timeout => .error "Package installation timed out"

/-- `TaskExecutor._run_program` (the success message is produced for any
exit code; only a timeout or OS error raises). -/
def runProgramH : Handler := fun env task =>
  let prog? := match task.entities.programs with
    | p :: _ => some p
    | [] => match task.entities.files with
      | f :: _ => some f
      | [] => none
  match prog? with
  | none => .error "No program or file specified to run"
  | some program =>
    match env.runProc program with
    | .ok rc out err =>
      .ok ([("program", program), ("return_code", toString rc),
            ("stdout", out), ("stderr", err),
            ("message", "Program " ++ quoted program ++ " executed successfully")], env)
    | .timeout => .error "Program execution timed out"
    | .oserror e => .error ("Failed to run program: " ++ e)

/-- `TaskExecutor._check_system` (the psutil/platform metric snapshot is the
collaborator-supplied `sysinfo`). -/
def checkSystemH : Handler := fun env _ =>
  .ok (env.sysinfo ++ [("message", "System status checked successfully")], env)

/-- `TaskExecutor._analyze_data`. -/
def analyzeDataH : Handler := fun env task =>
  match task.entities.files with
  | filename :: _ =>
    if env.files.contains filename then
      .ok ([("filename", filename), ("file_size", toString (env.fileSize filename)),
            ("analysis_type", "basic_file_analysis"),
            ("message", "Basic analysis of " ++ quoted filename ++ " completed")], env)
    else
      .ok ([("analysis_type", "general_data_analysis"),
            ("message", "Data analysis completed (placeholder implementation)")], env)
  | [] =>
    .ok ([("analysis_type", "general_data_analysis"),
          ("message", "Data analysis completed (placeholder implementation)")], env)

/-- `TaskExecutor._convert_data`. -/
def convertDataH : Handler := fun env task =>
  match task.entities.files with
  | filename :: _ =>
    .ok ([("source_file", filename), ("conversion_type", "format_conversion"),
          ("message", "Data conversion for " ++ quoted filename ++ " completed")], env)
  | [] =>
    .ok ([("conversion_type", "general_data_conversion"),
          ("message", "Data conversion completed (placeholder implementation)")], env)

/-- `TaskExecutor._backup_data` (a named but missing file falls through to
the placeholder result). -/
def backupDataH : Handler := fun env task =>
  match task.entities.files with
  | filename :: _ =>
    if env.files.contains filename then
      .ok ([("source_file", filename), ("backup_file", filename ++ ".backup"),
            ("message", "Backup created: " ++ filename ++ ".backup")],
           { env with files := env.files ++ [filename ++ ".backup"] })
    else
      .ok ([("backup_type", "general_backup"),
            ("message", "Data backup completed (placeholder implementation)")], env)
  | [] =>
    .ok ([("backup_type", "general_backup"),
          ("message", "Data backup completed (placeholder implementation)")], env)

def sendEmailH : Handler := fun env _ =>
  .ok ([("email_type", "general_email"),
        ("message", "Email sending completed (placeholder implementation)")], env)

def scheduleMeetingH : Handler := fun env _ =>
  .ok ([("meeting_type", "general_meeting"),
        ("message", "Meeting scheduling completed (placeholder implementation)")], env)

def searchInformationH : Handler := fun env task =>
  let searchQuery :=
    if task.entities.keywords = [] then "general information"
    else joinSpace task.entities.keywords
  .ok ([("search_query", searchQuery), ("search_type", "information_search"),
        ("message", "Information search for " ++ quoted searchQuery ++ " completed")], env)

def explainTopicH : Handler := fun env task =>
  let topic :=
    if task.entities.keywords = [] then "general topic"
    else joinSpace task.entities.keywords
  .ok ([("topic", topic), ("explanation_type", "topic_explanation"),
        ("message", "Explanation of " ++ quoted topic ++ " completed")], env)

def setupAutomationH : Handler := fun env _ =>
  .ok ([("automation_type", "general_automation"),
        ("message", "Automation setup completed (placeholder implementation)")], env)

def createReminderH : Handler := fun env task =>
  let reminderTime := match task.entities.timeExpressions with
    | t :: _ => t
    | [] => "later"
  .ok ([("reminder_time", reminderTime), ("reminder_type", "general_reminder"),
        ("message", "Reminder created for " ++ reminderTime)], env)

/-- `self.task_handlers`, in dict insertion order. -/
def taskHandlers : List (String × Handler) :=
  [("file_creation", createFileH), ("file_opening", openFileH),
   ("file_deletion", deleteFileH), ("web_search", webSearchH),
   ("website_opening", openWebsiteH), ("file_download", downloadFileH),
   ("package_installation", installPackageH), ("program_execution", runProgramH),
   ("system_monitoring", checkSystemH), ("data_analysis", analyzeDataH),
   ("data_conversion", convertDataH), ("data_backup", backupDataH),
   ("email_sending", sendEmailH), ("meeting_scheduling", scheduleMeetingH),
   ("information_search", searchInformationH), ("topic_explanation", explainTopicH),
   ("automation_setup", setupAutomationH), ("reminder_creation", createReminderH)]

def lookupHandler (action : String) : Option Handler :=
  (taskHandlers.find? (fun kv => kv.1 = action)).map (·.2)

/-- One entry of `TaskExecutor.task_history` / one element of the result
list (`task_id`, `start_time`, `duration` and `timestamp` are wall-clock
fields, omitted). -/
structure TaskResult where
  taskName : String
  action : String
  success : Bool := false
  output : Option TaskOutput := none
  error : Option String := none
deriving Repr, DecidableEq

/-- Mutable executor state: `self.running_tasks` (a dict whose values are
task dicts — nothing in the source ever inserts into it), `self.task_history`,
and the external environment the handlers act on. -/
structure ExecState where
  runningTasks : List Task := []
  taskHistory : List TaskResult := []
  env : Env := {}

def maxConcurrentTasks : Nat := 5

/-- `TaskExecutor._can_run_task`. -/
def canRunTask (st : ExecState) (task : Task) : Bool :=
  if st.runningTasks.length ≥ maxConcurrentTasks then false
  else if !task.canParallel && st.runningTasks.any (fun r => !r.canParallel) then false
  else true

/-- `TaskExecutor.execute_task`: admission check, handler lookup, dispatch,
and the success-path history append (capped at 1000, oldest popped).  The
constraint-rejection and missing-handler paths return early, and the
exception path falls into `except`, so none of those three appends to the
history.  Handlers fail before completing their side effect (spec §4.4
"fail cleanly"), so the environment is unchanged on the error path. -/
def executeTask (st : ExecState) (task : Task) : TaskResult × ExecState :=
  let base : TaskResult := { taskName := task.name, action := task.action }
  if !(canRunTask st task) then
    ({ base with error := some "Task cannot be run due to system constraints" }, st)
  else
    match lookupHandler task.action with
    | none => ({ base with error := some ("No handler found for action: " ++ task.action) }, st)
    | some handler =>
      match handler st.env task with
      | .ok (output, env1) =>
        let result := { base with success := true, output := some output }
        let hist := st.taskHistory ++ [result]
        let hist := if hist.length > 1000 then hist.tail else hist
        (result, { st with env := env1, taskHistory := hist })
      | .error e => ({ base with error := some e }, st)

/-! ### `MemoryManager`

A stored memory's `data` payload is only ever read through
`json.dumps(data).lower().split()` (relevance scoring and indexing), so the
payload is embedded as that word list directly.  Timestamps are rational
epoch seconds and `datetime.now()` is an explicit `now` parameter.  The MD5
content hash of `_generate_memory_id` is abstracted to a content key string
(the code relies on it only as a dict key).  The word→id search index
(`memory_index`) is written but read by no claim and is omitted. -/

structure Memory where
  id : String
  mtype : String
  words : List String
  timestamp : ℚ
  accessCount : Nat
  importance : ℚ
  relevanceScore : Option ℚ := none
deriving Repr, DecidableEq

structure MemState where
  shortTerm : List Memory := []
  longTerm : List (String × Memory) := []
  totalMemories : Nat := 0
  consolidationCount : Nat := 0
deriving Repr, DecidableEq

/-- `MemoryManager._calculate_relevance`.  `query_words` is a Python `set`,
so the overlap counts distinct words.  (On an empty query Python would
divide by zero; `ℚ` totalizes `x / 0 = 0`, and properties quantifying over
queries assume a nonempty word set.) -/
def calcRelevance (now : ℚ) (m : Memory) (queryLower : String) : ℚ :=
  let queryWords := (pySplitWs queryLower).dedup
  let overlapPart : ℚ :=
    if m.words ≠ [] then
      (((queryWords.filter (fun w => m.words.contains w)).length : ℚ) /
        (queryWords.length : ℚ)) * (1 / 2)
    else 0
  let typePart : ℚ := if strContains queryLower m.mtype then 3 / 10 else 0
  let ageHours : ℚ := (now - m.timestamp) / 3600
  min 1 (overlapPart + typePart + max 0 (1 - ageHours / 24) * (1 / 5))

/-- The in-place mutation `search_memories` applies to each stored memory it
deems relevant. -/
def touchMemory (now : ℚ) (queryLower : String) (m : Memory) : Memory :=
  if calcRelevance now m queryLower > 1 / 10 then
    { m with relevanceScore := some (calcRelevance now m queryLower),
             accessCount := m.accessCount + 1 }
  else m

/-- Stable descending sort with an arbitrary `key y ≤ key x` test, for the
`(relevance_score, timestamp)` tuple key of `search_memories`. -/
def pyInsertDescBy (le : α → α → Bool) (x : α) : List α → List α
  | [] => [x]
  | y :: ys => if le y x then x :: y :: ys else y :: pyInsertDescBy le x ys

def pySortedDescBy (le : α → α → Bool) : List α → List α
  | [] => []
  | x :: xs => pyInsertDescBy le x (pySortedDescBy le xs)

def memSortKey (m : Memory) : ℚ × ℚ := (m.relevanceScore.getD 0, m.timestamp)

def lexQQle (a b : ℚ × ℚ) : Bool := decide (a.1 < b.1 ∨ (a.1 = b.1 ∧ a.2 ≤ b.2))

/-- `MemoryManager.search_memories`: score every short-term then long-term
memory, mutate the relevant ones in place (relevance score written, access
count incremented), sort the relevant ones by `(relevance_score, timestamp)`
descending and return the top `limit`.  Returns the results together with
the mutated store. -/
def searchMemories (now : ℚ) (query : String) (limit : Nat) (st : MemState) :
    List Memory × MemState :=
  let ql := pyLower query
  let short1 := st.shortTerm.map (touchMemory now ql)
  let long1 := st.longTerm.map (fun kv => (kv.1, touchMemory now ql kv.2))
  let relevant :=
    (st.shortTerm.map (touchMemory now ql)).zip st.shortTerm
      |>.filterMap (fun p => if calcRelevance now p.2 ql > 1 / 10 then some p.1 else none)
  let relevantLong :=
    (st.longTerm.map (fun kv => touchMemory now ql kv.2)).zip st.longTerm
      |>.filterMap (fun p => if calcRelevance now p.2.2 ql > 1 / 10 then some p.1 else none)
  let sorted := pySortedDescBy (fun a b => lexQQle (memSortKey a) (memSortKey b))
    (relevant ++ relevantLong)
  (sorted.take limit, { st with shortTerm := short1, longTerm := long1 })

/-- The selection predicate of `consolidate_memories`: importance above 0.5,
accessed more than twice, or older than one hour. -/
def consolidationCriterion (now : ℚ) (m : Memory) : Bool :=
  decide (m.importance > 1 / 2) || decide (m.accessCount > 2) ||
    decide (m.timestamp < now - 3600)

def dictSetMem (l : List (String × Memory)) (k : String) (v : Memory) :
    List (String × Memory) :=
  if l.any (fun kv => kv.1 = k) then l.map (fun kv => if kv.1 = k then (k, v) else kv)
  else l ++ [(k, v)]

/-- `MemoryManager.consolidate_memories`. -/
def consolidateMemories (now : ℚ) (st : MemState) : MemState :=
  if st.shortTerm.length < 50 then st
  else
    let selected := st.shortTerm.filter (consolidationCriterion now)
    { st with
      longTerm := selected.foldl (fun lt m => dictSetMem lt m.id m) st.longTerm
      shortTerm := st.shortTerm.filter (fun m => !(selected.contains m))
      consolidationCount := st.consolidationCount + 1 }

/-- `MemoryManager.cleanup_old_memories` (default `days = 30`): purge
long-term entries that are old, rarely accessed and unimportant. -/
def cleanupOldMemories (now : ℚ) (days : Nat) (st : MemState) : MemState :=
  { st with
    longTerm := st.longTerm.filter (fun kv =>
      !(decide (kv.2.timestamp < now - (days : ℚ) * 86400) &&
        decide (kv.2.accessCount < 3) && decide (kv.2.importance < 3 / 10))) }

/-- Short-term storage is `deque(maxlen=1000)`: appending at capacity drops
the oldest entry. -/
def shortTermAppend (shortTerm : List Memory) (m : Memory) : List Memory :=
  if shortTerm.length ≥ 1000 then shortTerm.tail ++ [m] else shortTerm ++ [m]

/-- `MemoryManager.store_task_result`.  The importance formula is
`_calculate_importance({'task': ..., 'result': ...})`: the payload has no
top-level `'timestamp'` key, so the recency term does not apply. -/
def storeTaskResult (now : ℚ) (task : Task) (result : TaskResult) (st : MemState) :
    MemState :=
  let importance := min 1 ((task.priority : ℚ) * (1 / 5) + (task.complexity : ℚ) * (1 / 10) +
    (if result.success then 3 / 10 else 1 / 10))
  let m : Memory :=
    { id := "task_result " ++ task.name ++ " " ++ task.action
      mtype := "task_result"
      words := pySplitWs (pyLower (task.name ++ " " ++ task.action ++ " " ++
        (match result.error with | some e => e | none => "") ++ " " ++
        (match result.output.bind (·.get "message") with | some s => s | none => "")))
      timestamp := now
      accessCount := 0
      importance := importance }
  { st with shortTerm := shortTermAppend st.shortTerm m
            totalMemories := st.totalMemories + 1 }

/-- `MemoryManager.store_interaction`.  The interaction payload has a
top-level `'timestamp'` (age 0 at storage time) and no `'task'`/`'result'`
keys, so `_calculate_importance` reduces to the recency term. -/
def storeInteraction (now : ℚ) (command : String) (st : MemState) : MemState :=
  let m : Memory :=
    { id := "interaction " ++ command
      mtype := "interaction"
      words := pySplitWs (pyLower command)
      timestamp := now
      accessCount := 0
      importance := min 1 (max 0 (1 - (0 : ℚ) / 24) * (1 / 5)) }
  { st with shortTerm := shortTermAppend st.shortTerm m
            totalMemories := st.totalMemories + 1 }

/-! ### `AIBrain` -/

/-- The brain's mutable state.  The knowledge store is a collaborator
specified at interface level (spec §4.6); the only observation the claims
make of it is that it is untouched while inactive, represented by its
`learning_sessions` counter. -/
structure BrainState where
  isActive : Bool := false
  consciousnessLevel : ℚ := 1
  energyLevel : ℚ := 1
  focusLevel : ℚ := 1
  learnedPatterns : List (String × LearnedInfo) := []
  contextMemory : List String := []
  exec : ExecState := {}
  memory : MemState := {}
  knowledgeSessions : Nat := 0

/-- `AIBrain.wake_up`. -/
def wakeUp (b : BrainState) : BrainState :=
  { b with isActive := true, consciousnessLevel := 1, energyLevel := 1, focusLevel := 1 }

/-- The execution plan (`dependencies` is always the empty dict and is
omitted). -/
structure Plan where
  tasks : List Task
  priorityOrder : List Task
  estimatedTime : Nat
  parallelTasks : List Task
deriving Repr, DecidableEq

/-- `AIBrain.plan_execution`: stable priority-descending sort, additive
duration estimate, parallel-allowed subset. -/
def planExecution (tasks : List Task) : Plan :=
  { tasks := tasks
    priorityOrder := pySortedDesc (·.priority) tasks
    estimatedTime := (tasks.map (·.estimatedTime)).sum
    parallelTasks := tasks.filter (·.canParallel) }

/-- `AIBrain.update_brain_state`: bounded energy/focus telemetry. -/
def updateBrainState (b : BrainState) (task : Task) (result : TaskResult) : BrainState :=
  let energy := if result.success then min 1 (b.energyLevel + 1 / 10)
    else max 0 (b.energyLevel - 1 / 5)
  let focus := max 0 (b.focusLevel - (task.complexity : ℚ) * (1 / 20))
  let focus := if focus < 1 / 2 then min 1 (focus + 1 / 10) else focus
  { b with energyLevel := energy, focusLevel := focus }

/-- `AIBrain.execute_tasks`: iterate the priority-sorted list, execute each
task, update telemetry and store the result in memory.  `execute_task`
catches handler exceptions itself, so the per-iteration `except` of the
source is unreachable in the embedding. -/
def executeTasksGo (now : ℚ) (b : BrainState) : List Task → List TaskResult × BrainState
  | [] => ([], b)
  | task :: rest =>
    let (result, ex) := executeTask b.exec task
    let b1 := updateBrainState { b with exec := ex } task result
    let b2 := { b1 with memory := storeTaskResult now task result b1.memory }
    let (rs, bf) := executeTasksGo now b2 rest
    (result :: rs, bf)

def executeTasksB (now : ℚ) (b : BrainState) (plan : Plan) : List TaskResult × BrainState :=
  executeTasksGo now b plan.priorityOrder

/-- `AIBrain.learn_from_interaction`: store the interaction, update the
knowledge collaborator, learn the command's key-phrase pattern. -/
def learnFromInteraction (now : ℚ) (b : BrainState) (command : String)
    (u : Understanding) : BrainState :=
  let memory := storeInteraction now command b.memory
  let (learned, ctx) := learnPattern b.learnedPatterns b.contextMemory command u
  { b with memory := memory, knowledgeSessions := b.knowledgeSessions + 1,
           learnedPatterns := learned, contextMemory := ctx }

/-- The dict `process_command` returns: the inactive branch builds
`{"error": ...}` with no other keys; the success branch builds the five-key
result.  Absent keys are `none`. -/
structure Response where
  success : Option Bool := none
  command : Option String := none
  understanding : Option Understanding := none
  tasks : Option (List Task) := none
  results : Option (List TaskResult) := none
  error : Option String := none
deriving Repr, DecidableEq

/-- `AIBrain.process_command`.  The pure pipeline raises no exception, so
the `except` branch (`success=False` with an error) is unreachable in the
embedding. -/
def processCommand (now : ℚ) (b : BrainState) (command : String) :
    Response × BrainState :=
  if !b.isActive then
    ({ error := some "Brain is not active. Please wake up first." }, b)
  else
    let u := understand b.learnedPatterns command
    let tasks := detectTasks u
    let plan := planExecution tasks
    let (results, b1) := executeTasksB now b plan
    let b2 := learnFromInteraction now b1 command u
    ({ success := some true, command := some command, understanding := some u,
       tasks := some tasks, results := some results }, b2)

/-! ### Concrete scenario data used by the claim theorems -/

/-- The `setup_automation` template as a detected task (the only
always-selectable non-parallel template). -/
def setupAutomationTask : Task :=
  { name := "Setup Automation", action := "automation_setup", priority := 4, complexity := 4,
    estimatedTime := 120, canParallel := false }

/-- A `web_search` task whose entities carry no keywords, so its handler
raises `"No search terms provided"`. -/
def noKeywordsWebSearchTask : Task :=
  { name := "Web Search", action := "web_search", priority := 2, complexity := 2,
    estimatedTime := 5, canParallel := true }

def sendEmailTask : Task :=
  { name := "Send Email", action := "email_sending", priority := 3, complexity := 2,
    estimatedTime := 10, canParallel := true }

/-- A stored memory sharing the word alpha with the query used below. -/
def searchedMemory : Memory :=
  { id := "m1", mtype := "interaction", words := ["alpha"], timestamp := 0,
    accessCount := 0, importance := 0 }

def searchedStore : MemState := { shortTerm := [searchedMemory] }

/-! ### Helper lemmas -/

theorem pyInsertDesc_length (key : α → Nat) (x : α) (l : List α) :
    (pyInsertDesc key x l).length = l.length + 1 := by
  induction l with
  | nil => rfl
  | cons y ys ih =>
    simp only [pyInsertDesc]
    split <;> simp [ih]

theorem pySortedDesc_length (key : α → Nat) (l : List α) :
    (pySortedDesc key l).length = l.length := by
  induction l with
  | nil => rfl
  | cons x xs ih => simp [pySortedDesc, pyInsertDesc_length, ih]

theorem mem_pyInsertDesc {key : α → Nat} {x z : α} {l : List α} :
    z ∈ pyInsertDesc key x l ↔ z = x ∨ z ∈ l := by
  induction l with
  | nil => simp [pyInsertDesc]
  | cons y ys ih =>
    simp only [pyInsertDesc]
    split
    · simp
    · simp only [List.mem_cons, ih]
      tauto

theorem pyInsertDesc_pairwise {key : α → Nat} {x : α} {l : List α}
    (h : l.Pairwise (fun a b => key b ≤ key a)) :
    (pyInsertDesc key x l).Pairwise (fun a b => key b ≤ key a) := by
  induction l with
  | nil => simp [pyInsertDesc]
  | cons y ys ih =>
    simp only [pyInsertDesc]
    split
    · rename_i hle
      refine List.Pairwise.cons ?_ h
      intro z hz
      rcases List.mem_cons.mp hz with hzy | hzys
      · exact hzy ▸ hle
      · exact Nat.le_trans ((List.pairwise_cons.mp h).1 z hzys) hle
    · rename_i hgt
      have hxy : key x ≤ key y := Nat.le_of_lt (Nat.lt_of_not_le hgt)
      rcases List.pairwise_cons.mp h with ⟨hy, hys⟩
      refine List.Pairwise.cons ?_ (ih hys)
      intro z hz
      rcases mem_pyInsertDesc.mp hz with hzx | hzys
      · exact hzx ▸ hxy
      · exact hy z hzys

theorem pySortedDesc_pairwise (key : α → Nat) (l : List α) :
    (pySortedDesc key l).Pairwise (fun a b => key b ≤ key a) := by
  induction l with
  | nil => simp [pySortedDesc]
  | cons x xs ih => exact pyInsertDesc_pairwise ih

theorem pyInsertDesc_filter (key : α → Nat) (p : Nat) (x : α) (l : List α)
    (hsorted : l.Pairwise (fun a b => key b ≤ key a)) :
    (pyInsertDesc key x l).filter (fun a => key a == p) =
      if key x = p then x :: l.filter (fun a => key a == p)
      else l.filter (fun a => key a == p) := by
  induction l with
  | nil =>
    by_cases hx : key x = p <;> simp [pyInsertDesc, List.filter_cons, hx]
  | cons y ys ih =>
    simp only [pyInsertDesc]
    split
    · rename_i hle
      by_cases hx : key x = p <;> simp [List.filter_cons, hx]
    · rename_i hgt
      have hxy : key x < key y := Nat.lt_of_not_le hgt
      rcases List.pairwise_cons.mp hsorted with ⟨_, hys⟩
      by_cases hy : key y = p
      · have hx : key x ≠ p := by omega
        simp [List.filter_cons, hy, hx, ih hys]
      · by_cases hx : key x = p <;> simp [List.filter_cons, hy, hx, ih hys]

theorem pySortedDesc_filter (key : α → Nat) (p : Nat) (l : List α) :
    (pySortedDesc key l).filter (fun a => key a == p) =
      l.filter (fun a => key a == p) := by
  induction l with
  | nil => rfl
  | cons x xs ih =>
    simp only [pySortedDesc]
    rw [pyInsertDesc_filter key p x _ (pySortedDesc_pairwise key xs)]
    by_cases hx : key x = p <;> simp [List.filter_cons, hx, ih]

theorem length_filterMap_eq_length_filter {f : α → Option β} {p : α → Bool}
    (h : ∀ a, (f a).isSome = p a) (l : List α) :
    (l.filterMap f).length = (l.filter p).length := by
  induction l with
  | nil => rfl
  | cons a l ih =>
    have ha := h a
    cases hfa : f a with
    | none =>
      rw [hfa] at ha
      simp [List.filterMap_cons, List.filter, hfa, ← ha, ih]
    | some b =>
      rw [hfa] at ha
      simp [List.filterMap_cons, List.filter, hfa, ← ha, ih]

/-- The category names of the static template table. -/
def templateCategories : List String := taskTemplates.map (·.1)

theorem selectBestTask_isSome (itype : String) (u : Understanding)
    (h : templateCategories.contains itype = true) :
    (selectBestTask itype u).isSome = true := by
  have hmem : itype ∈ templateCategories := by
    simpa using h
  have : itype = "file_operations" ∨ itype = "web_operations" ∨
      itype = "system_operations" ∨ itype = "data_operations" ∨
      itype = "communication" ∨ itype = "information_gathering" ∨
      itype = "automation" := by
    simpa [templateCategories, taskTemplates] using hmem
  rcases this with h1 | h1 | h1 | h1 | h1 | h1 | h1 <;> subst h1 <;>
    simp only [selectBestTask] <;>
    simp only [templateCatalog, taskTemplates, catalogGet, List.find?] <;>
    simp <;>
    (try split) <;>
    simp

/-- `execute_task` never writes `running_tasks`: no branch of the source
inserts into or removes from the dict. -/
theorem executeTask_runningTasks (st : ExecState) (t : Task) :
    (executeTask st t).2.runningTasks = st.runningTasks := by
  unfold executeTask
  dsimp only
  split
  · rfl
  · split
    · rfl
    · split <;> rfl

theorem executeTasksGo_length (now : ℚ) (ts : List Task) :
    ∀ b : BrainState, ((executeTasksGo now b ts).1).length = ts.length := by
  induction ts with
  | nil => intro b; rfl
  | cons t rest ih =>
    intro b
    simp only [executeTasksGo]
    simp [ih]

/-- `touchMemory` alters only the relevance score and access count, neither
of which `_calculate_relevance` reads. -/
theorem calcRelevance_touchMemory (now now2 : ℚ) (ql ql2 : String) (m : Memory) :
    calcRelevance now (touchMemory now2 ql2 m) ql = calcRelevance now m ql := by
  unfold touchMemory
  by_cases h : calcRelevance now2 m ql2 > 1 / 10
  · rw [if_pos h]; rfl
  · rw [if_neg h]

theorem touchMemory_of_relevant (now : ℚ) (ql : String) (m : Memory)
    (hr : calcRelevance now m ql > 1 / 10) :
    touchMemory now ql m =
      { m with relevanceScore := some (calcRelevance now m ql),
               accessCount := m.accessCount + 1 } := by
  unfold touchMemory
  rw [if_pos hr]

theorem tail_append_singleton_of_ne_nil {l : List α} {x : α} (h : l ≠ []) :
    (l ++ [x]).tail = l.tail ++ [x] := by
  cases l with
  | nil => exact absurd rfl h
  | cons a l => rfl

theorem foldl_max_le_init (l : List Intent) :
    ∀ a : ℚ, a ≤ l.foldl (fun x i => max x i.confidence) a := by
  induction l with
  | nil => intro a; simp [List.foldl]
  | cons i l ih => intro a; exact le_trans (le_max_left a i.confidence) (ih _)

/-- Every intent `_detect_intents` emits has a nonnegative confidence, as
long as the learned-pattern table holds nonnegative confidences (which is
all `learn_pattern` ever stores). -/
theorem detectIntents_confidence_nonneg (lp : List (String × LearnedInfo)) (cmd : String)
    (h : ∀ kv ∈ lp, 0 ≤ kv.2.confidence) :
    ∀ i ∈ detectIntents lp cmd, 0 ≤ i.confidence := by
  intro i hi
  unfold detectIntents at hi
  rcases List.mem_append.mp hi with hi | hi
  · rcases List.mem_flatMap.mp hi with ⟨cp, _, hcp⟩
    rcases List.mem_filterMap.mp hcp with ⟨pr, _, hpr⟩
    by_cases hn : reCount pr.2 cmd ≠ 0
    · rw [if_pos hn] at hpr
      have hrec := Option.some.inj hpr
      subst hrec
      positivity
    · rw [if_neg hn] at hpr
      cases hpr
  · rcases List.mem_filterMap.mp hi with ⟨kv, hkv, hkvi⟩
    by_cases hc : strContains (pyLower cmd) (pyLower kv.1) = true
    · rw [if_pos hc] at hkvi
      have hrec := Option.some.inj hkvi
      subst hrec
      exact h kv hkv
    · rw [if_neg hc] at hkvi
      cases hkvi

/-- `_calculate_confidence` always lands in `[0, 1]` when the detected
intents carry nonnegative confidences. -/
theorem calculateConfidence_bounds (intents : List Intent) (e : Entities)
    (h : ∀ i ∈ intents, 0 ≤ i.confidence) :
    0 ≤ calculateConfidence intents e ∧ calculateConfidence intents e ≤ 1 := by
  cases intents with
  | nil => simp [calculateConfidence]
  | cons i0 rest =>
    unfold calculateConfidence
    dsimp only
    constructor
    · apply le_min
      · norm_num
      · apply add_nonneg
        · exact le_trans (h i0 (List.mem_cons_self i0 rest)) (foldl_max_le_init rest i0.confidence)
        · split_ifs <;> positivity
    · exact min_le_left _ _

/-! ### The claims -/

/-- Claim C1 (code bug evidence): a plan of six non-parallel tasks — one
more than `max_concurrent_tasks = 5` — is executed in full: every one of the
six is admitted, its handler runs and succeeds, and none receives the fixed
"system constraints" rejection, because `running_tasks` is never written by
any code path (third conjunct), so `_can_run_task` always sees zero running
tasks.  The claim (spec §5/§8) says the sixth task onward must be rejected
with the constraint error. -/
theorem C1_admission_check_never_rejects :
    (maxConcurrentTasks = 5) ∧
    (setupAutomationTask.canParallel = false) ∧
    (((executeTasksB 0 (wakeUp {}) (planExecution (List.replicate 6 setupAutomationTask))).1).map
        (fun r => (r.success, r.error)) =
      List.replicate 6 ((true : Bool), (none : Option String))) ∧
    ((executeTasksB 0 (wakeUp {})
        (planExecution (List.replicate 6 setupAutomationTask))).2.exec.runningTasks = []) ∧
    (∀ (st : ExecState) (t : Task), (executeTask st t).2.runningTasks = st.runningTasks) :=
  ⟨rfl, rfl, by decide, by decide, executeTask_runningTasks⟩

/-- Claim C2 (counterexample): on `"create a new file called demo.txt"` the
understanding holds two `file_operations` intents (rules 1 and 2 both
match), and each produced task has action `file_opening` — not one intent
and not a `file_creation` task, because the extracted file entity
`demo.txt` makes `_select_best_task` pick `open_file`. -/
theorem C2_counterexample :
    ((understand [] "create a new file called demo.txt").intents.map (fun i => i.itype) =
      ["file_operations", "file_operations"]) ∧
    ((detectTasks (understand [] "create a new file called demo.txt")).map (fun t => t.action) =
      ["file_opening", "file_opening"]) ∧
    ("file_opening" ≠ "file_creation") := by decide

/-- Claim C2 (amended): `"create a new file called demo.txt"` yields two
`file_operations` intents, hence two tasks, each with action `file_opening`
and file entities `["demo.txt"]`; executing such a task when `demo.txt`
exists succeeds with a message containing "demo.txt" and "opened". -/
theorem C2_scenario_amended :
    ((understand [] "create a new file called demo.txt").intents.map (fun i => i.itype) =
      ["file_operations", "file_operations"]) ∧
    ((understand [] "create a new file called demo.txt").entities.files = ["demo.txt"]) ∧
    ((detectTasks (understand [] "create a new file called demo.txt")).map
        (fun t => (t.action, t.entities.files)) =
      [("file_opening", ["demo.txt"]), ("file_opening", ["demo.txt"])]) ∧
    ((detectTasks (understand [] "create a new file called demo.txt")).map (fun t =>
        ((executeTask { env := { files := ["demo.txt"] } } t).1.success,
          (executeTask { env := { files := ["demo.txt"] } } t).1.output.bind
            (fun o => o.get "message"))) =
      List.replicate 2 (true, some "File \x27demo.txt\x27 opened successfully")) ∧
    (strContains "File \x27demo.txt\x27 opened successfully" "demo.txt" = true) ∧
    (strContains "File \x27demo.txt\x27 opened successfully" "opened" = true) := by decide

/-- Claim C3 (counterexample): `"create a new file called demo.txt"`
triggers a single intent category yet produces two tasks — one per matched
rule of that category, contradicting "only a single task for that category
appears". -/
theorem C3_counterexample :
    (((understand [] "create a new file called demo.txt").intents.map
        (fun i => i.itype)).dedup = ["file_operations"]) ∧
    ((detectTasks (understand [] "create a new file called demo.txt")).length = 2) := by decide

/-- Claim C3 (amended): task detection produces exactly one task per
detected *intent* (and `_detect_intents` emits one intent per matched rule),
not one per category: the number of tasks equals the number of intents
whose category is in the template table. -/
theorem C3_one_task_per_intent (u : Understanding) :
    (detectTasks u).length =
      (u.intents.filter (fun i => templateCategories.contains i.itype)).length := by
  unfold detectTasks
  rw [pySortedDesc_length]
  unfold detectTasksUnsorted
  apply length_filterMap_eq_length_filter
  intro i
  by_cases hc : templateCategories.contains i.itype = true
  · have hc2 : (taskTemplates.map (fun x => x.1)).contains i.itype = true := hc
    rw [if_pos hc2, hc]
    simp [Option.isSome_map, selectBestTask_isSome i.itype u hc]
  · rw [Bool.not_eq_true] at hc
    have hc2 : ¬((taskTemplates.map (fun x => x.1)).contains i.itype = true) := by
      intro hcon
      rw [show (taskTemplates.map (fun x => x.1)).contains i.itype =
          templateCategories.contains i.itype from rfl, hc] at hcon
      cases hcon
    rw [if_neg hc2, hc]
    rfl

/-- Claim C4 (counterexample): for `"search for machine learning basics"`
the handler's `search_query` is `"search machine learning basics"` — the
verb "search" is itself kept as a keyword entity (it is longer than three
characters and not a stopword) — not `"machine learning basics"`. -/
theorem C4_counterexample :
    ((detectTasks (understand [] "search for machine learning basics")).map (fun t => t.action) =
      ["web_search"]) ∧
    ((detectTasks (understand [] "search for machine learning basics")).map (fun t =>
        (executeTask {} t).1.output.bind (fun o => o.get "search_query")) =
      [some "search machine learning basics"]) ∧
    ("search machine learning basics" ≠ "machine learning basics") := by decide

/-- Claim C4 (amended): `"search for machine learning basics"` yields one
`web_search` task; its handler succeeds with
`search_query = "search machine learning basics"` (built from the keyword
entities, which include the verb "search") and the corresponding Google
search URL. -/
theorem C4_scenario_amended :
    ((understand [] "search for machine learning basics").entities.keywords =
      ["search", "machine", "learning", "basics"]) ∧
    ((detectTasks (understand [] "search for machine learning basics")).map (fun t => t.action) =
      ["web_search"]) ∧
    ((detectTasks (understand [] "search for machine learning basics")).map (fun t =>
        ((executeTask {} t).1.success,
          (executeTask {} t).1.output.bind (fun o => o.get "search_query"),
          (executeTask {} t).1.output.bind (fun o => o.get "search_url"))) =
      [(true, some "search machine learning basics",
        some "https://www.google.com/search?q=search+machine+learning+basics")]) := by decide

/-- Claim C5 (counterexample): on `"meeting meeting meeting meeting"` the
single communication rule matches four times against a category of three
rules, so the detected intent's confidence is 4/3, outside `[0, 1]`. -/
theorem C5_counterexample :
    ((understand [] "meeting meeting meeting meeting").intents.map (fun i => i.confidence) =
      [(4 : ℚ) / 3]) ∧ ¬((4 : ℚ) / 3 ≤ 1) := by with_unfolding_all decide

/-- Claim C5 (amended): all confidences the system produces are
nonnegative, and the overall understanding confidence is clamped to
`[0, 1]` by `min(1.0, ...)`; but a rule intent's confidence (matches /
rules-per-category) is not clamped and may exceed 1 (see the
counterexample).  The hypothesis states the reachability invariant of the
learned-pattern table: `learn_pattern` only ever stores understanding
confidences, which this very theorem shows are nonnegative. -/
theorem C5_confidence_amended (lp : List (String × LearnedInfo)) (command : String)
    (h : ∀ kv ∈ lp, 0 ≤ kv.2.confidence) :
    (0 ≤ (understand lp command).confidence ∧ (understand lp command).confidence ≤ 1) ∧
    (∀ i ∈ (understand lp command).intents, 0 ≤ i.confidence) := by
  have hint := detectIntents_confidence_nonneg lp (pyLower (pyStrip command)) h
  exact ⟨calculateConfidence_bounds _ _ hint, hint⟩

/-- Claim C5 witness: the amended theorem applied to the empty learned
table and the counterexample command. -/
theorem C5_witness :
    (0 ≤ (understand [] "meeting meeting meeting meeting").confidence ∧
      (understand [] "meeting meeting meeting meeting").confidence ≤ 1) ∧
    (∀ i ∈ (understand [] "meeting meeting meeting meeting").intents, 0 ≤ i.confidence) :=
  C5_confidence_amended [] "meeting meeting meeting meeting" (by simp)

/-- Claim C6 (counterexample): a task whose handler raises (a `web_search`
with no keywords) yields a failed result that is *not* appended to the task
history — the append sits on the success path only. -/
theorem C6_counterexample :
    ((executeTask {} noKeywordsWebSearchTask).1.success = false) ∧
    ((executeTask {} noKeywordsWebSearchTask).1.error = some "No search terms provided") ∧
    ((executeTask {} noKeywordsWebSearchTask).2.taskHistory = []) := by decide

/-- Claim C6 (amended): only a *successfully* executed task's result is
appended to the task history (rejected, handler-less and failed tasks leave
it untouched); the history never exceeds 1000 entries, and on overflow the
oldest entry is evicted first. -/
theorem C6_history_amended (st : ExecState) (task : Task)
    (h : st.taskHistory.length ≤ 1000) :
    ((executeTask st task).2.taskHistory.length ≤ 1000) ∧
    ((executeTask st task).1.success = true →
      (executeTask st task).2.taskHistory =
        if st.taskHistory.length = 1000
        then st.taskHistory.tail ++ [(executeTask st task).1]
        else st.taskHistory ++ [(executeTask st task).1]) ∧
    ((executeTask st task).1.success = false →
      (executeTask st task).2.taskHistory = st.taskHistory) := by
  by_cases hcr : canRunTask st task = true
  · cases hlk : lookupHandler task.action with
    | none =>
      refine ⟨?_, ?_, ?_⟩ <;>
        simp only [executeTask, hcr, hlk, Bool.not_true, Bool.false_eq_true,
          Bool.true_eq_false, if_false, false_implies, implies_true, true_implies] <;>
        first
          | exact h
          | trivial
    | some hd =>
      cases hres : hd st.env task with
      | error e =>
        refine ⟨?_, ?_, ?_⟩ <;>
          simp only [executeTask, hcr, hlk, hres, Bool.not_true, Bool.false_eq_true,
            Bool.true_eq_false, if_false, false_implies, implies_true, true_implies] <;>
          first
            | exact h
            | trivial
      | ok pair =>
        obtain ⟨out, env1⟩ := pair
        refine ⟨?_, ?_, ?_⟩ <;>
          simp only [executeTask, hcr, hlk, hres, Bool.not_true, Bool.false_eq_true,
            Bool.true_eq_false, if_false, false_implies, implies_true, true_implies]
        · split
          · rename_i hlen
            simp only [List.length_tail, List.length_append, List.length_singleton]
            omega
          · rename_i hlen
            simp only [List.length_append, List.length_singleton] at hlen ⊢
            omega
        · split
          · rename_i hlen
            simp only [List.length_append, List.length_singleton] at hlen
            have h1000 : st.taskHistory.length = 1000 := by omega
            have hne : st.taskHistory ≠ [] := by
              intro hnil
              rw [hnil] at h1000
              cases h1000
            rw [if_pos h1000, tail_append_singleton_of_ne_nil hne]
          · rename_i hlen
            simp only [List.length_append, List.length_singleton] at hlen
            rw [if_neg (by omega)]
  · have hcr2 : canRunTask st task = false := by rwa [Bool.not_eq_true] at hcr
    refine ⟨?_, ?_, ?_⟩ <;>
      simp only [executeTask, hcr2, Bool.not_false, if_true, Bool.false_eq_true,
        Bool.true_eq_false, false_implies, implies_true, true_implies] <;>
      first
        | exact h
        | trivial

/-- Claim C6 witness: the amended theorem applied to the empty executor
state and an always-succeeding task. -/
theorem C6_witness :
    (((executeTask {} setupAutomationTask).2.taskHistory.length ≤ 1000) ∧
      ((executeTask {} setupAutomationTask).1.success = true →
        (executeTask {} setupAutomationTask).2.taskHistory =
          if (({} : ExecState)).taskHistory.length = 1000
          then (({} : ExecState)).taskHistory.tail ++ [(executeTask {} setupAutomationTask).1]
          else (({} : ExecState)).taskHistory ++ [(executeTask {} setupAutomationTask).1]) ∧
      ((executeTask {} setupAutomationTask).1.success = false →
        (executeTask {} setupAutomationTask).2.taskHistory = (({} : ExecState)).taskHistory)) :=
  C6_history_amended {} setupAutomationTask (by decide)

/-- Claim C7 (counterexample): the inactive-brain rejection dict is
`{"error": ...}` with *no* `success` key at all — so the result does not
carry `success = false`; callers merely observe the absence of
`success = true`. -/
theorem C7_counterexample :
    ((processCommand 0 {} "create a new file").1.success ≠ some false) ∧
    ((processCommand 0 {} "create a new file").1.success = none) ∧
    ((processCommand 0 {} "create a new file").1.error =
      some "Brain is not active. Please wake up first.") := by decide

/-- Claim C7 (amended): a command arriving while the brain is not active is
rejected immediately with a result whose only populated key is the error
message (no success flag is set), and the whole brain state — processor,
executor, memory, learned patterns — is left untouched: no understanding,
task detection or execution is attempted. -/
theorem C7_inactive_amended (now : ℚ) (b : BrainState) (command : String)
    (h : b.isActive = false) :
    processCommand now b command =
      ({ error := some "Brain is not active. Please wake up first." }, b) := by
  unfold processCommand
  rw [h]
  rfl

/-- Claim C7 witness: the amended theorem applied to the freshly
constructed (inactive) brain. -/
theorem C7_witness :
    processCommand 0 {} "hello" =
      ({ error := some "Brain is not active. Please wake up first." }, ({} : BrainState)) :=
  C7_inactive_amended 0 {} "hello" rfl

/-- Claim C8: executing a plan produces exactly one result per planned task
(no error aborts the remaining siblings), and whenever an admitted task's
handler raises, that task's result is a failed `TaskResult` carrying
exactly the exception's message. -/
theorem C8_task_errors_isolated :
    (∀ (now : ℚ) (b : BrainState) (plan : Plan),
      ((executeTasksB now b plan).1).length = plan.priorityOrder.length) ∧
    (∀ (st : ExecState) (task : Task) (hd : Handler) (e : String),
      lookupHandler task.action = some hd →
      hd st.env task = .error e →
      canRunTask st task = true →
      (executeTask st task).1 =
        { taskName := task.name, action := task.action, success := false,
          output := none, error := some e }) := by
  constructor
  · intro now b plan
    exact executeTasksGo_length now plan.priorityOrder b
  · intro st task hd e hl he hc
    simp only [executeTask, hc, hl, he, Bool.not_true, Bool.false_eq_true, if_false]

/-- Claim C8 witness: a two-task plan whose first task's handler raises
still yields two results, and the failing `web_search` task's result
carries the raised message. -/
theorem C8_witness :
    (((executeTasksB 0 (wakeUp {})
        (planExecution [noKeywordsWebSearchTask, sendEmailTask])).1).length =
      (planExecution [noKeywordsWebSearchTask, sendEmailTask]).priorityOrder.length) ∧
    ((executeTask {} noKeywordsWebSearchTask).1 =
      { taskName := "Web Search", action := "web_search", success := false,
        output := none, error := some "No search terms provided" }) :=
  ⟨C8_task_errors_isolated.1 0 (wakeUp {})
      (planExecution [noKeywordsWebSearchTask, sendEmailTask]),
   C8_task_errors_isolated.2 {} noKeywordsWebSearchTask webSearchH "No search terms provided"
     rfl rfl rfl⟩

/-- Claim C9: both task lists — `detect_tasks`' result and the plan's
`priority_order` — are sorted by priority descending, and the sort is
stable: for every priority value, filtering the sorted list yields the
original (detection-ordered) sublist unchanged. -/
theorem C9_priority_sort_stable (tasks : List Task) (u : Understanding) :
    ((planExecution tasks).priorityOrder.Pairwise (fun a b => b.priority ≤ a.priority) ∧
      ∀ p, (planExecution tasks).priorityOrder.filter (fun t => t.priority == p) =
        tasks.filter (fun t => t.priority == p)) ∧
    ((detectTasks u).Pairwise (fun a b => b.priority ≤ a.priority) ∧
      ∀ p, (detectTasks u).filter (fun t => t.priority == p) =
        (detectTasksUnsorted u).filter (fun t => t.priority == p)) :=
  ⟨⟨pySortedDesc_pairwise _ _, fun p => pySortedDesc_filter _ p _⟩,
   ⟨pySortedDesc_pairwise _ _, fun p => pySortedDesc_filter _ p _⟩⟩

/-- Claim C10: `search_memories` is not read-only.  Every stored memory
(short- or long-term) whose relevance against the query exceeds 0.1 gets
its access count incremented and its relevance score written in place,
while the others are untouched; repeating the same search three times
raises such a memory's access count by three, after which it satisfies the
consolidation criterion (`access_count > 2`) for every consolidation time —
precisely the threshold `consolidate_memories` (and, dually,
`cleanup_old_memories` with its `access_count < 3` test) reads.  The
hypothesis records that the query has at least one word, since Python would
divide by zero otherwise. -/
theorem C10_search_mutates_state (now : ℚ) (query : String) (limit : Nat) (st : MemState)
    (hq : (pySplitWs (pyLower query)).dedup ≠ []) :
    (∀ i m, st.shortTerm.get? i = some m →
      (calcRelevance now m (pyLower query) > 1 / 10 →
        ((searchMemories now query limit st).2).shortTerm.get? i =
          some { m with relevanceScore := some (calcRelevance now m (pyLower query)),
                        accessCount := m.accessCount + 1 }) ∧
      (¬(calcRelevance now m (pyLower query) > 1 / 10) →
        ((searchMemories now query limit st).2).shortTerm.get? i = some m)) ∧
    (∀ i k m, st.longTerm.get? i = some (k, m) →
      (calcRelevance now m (pyLower query) > 1 / 10 →
        ((searchMemories now query limit st).2).longTerm.get? i =
          some (k, { m with relevanceScore := some (calcRelevance now m (pyLower query)),
                            accessCount := m.accessCount + 1 })) ∧
      (¬(calcRelevance now m (pyLower query) > 1 / 10) →
        ((searchMemories now query limit st).2).longTerm.get? i = some (k, m))) ∧
    (∀ i m, st.shortTerm.get? i = some m →
      calcRelevance now m (pyLower query) > 1 / 10 →
      ∃ m3,
        ((searchMemories now query limit ((searchMemories now query limit
            ((searchMemories now query limit st).2)).2)).2).shortTerm.get? i = some m3 ∧
        m3.accessCount = m.accessCount + 3 ∧
        ∀ t : ℚ, consolidationCriterion t m3 = true) := by
  have hshort : ∀ s : MemState,
      ((searchMemories now query limit s).2).shortTerm =
        s.shortTerm.map (touchMemory now (pyLower query)) := fun s => rfl
  have hlong : ∀ s : MemState,
      ((searchMemories now query limit s).2).longTerm =
        s.longTerm.map (fun kv => (kv.1, touchMemory now (pyLower query) kv.2)) :=
    fun s => rfl
  refine ⟨?_, ?_, ?_⟩
  · intro i m hm
    constructor
    · intro hrel
      rw [hshort, List.get?_map, hm, Option.map_some']
      rw [touchMemory_of_relevant now (pyLower query) m hrel]
    · intro hrel
      rw [hshort, List.get?_map, hm, Option.map_some']
      unfold touchMemory
      rw [if_neg hrel]
  · intro i k m hm
    constructor
    · intro hrel
      rw [hlong, List.get?_map, hm, Option.map_some']
      rw [touchMemory_of_relevant now (pyLower query) m hrel]
    · intro hrel
      rw [hlong, List.get?_map, hm, Option.map_some']
      unfold touchMemory
      rw [if_neg hrel]
  · intro i m hm hrel
    have hr1 : calcRelevance now (touchMemory now (pyLower query) m) (pyLower query) =
        calcRelevance now m (pyLower query) :=
      calcRelevance_touchMemory now now (pyLower query) (pyLower query) m
    have hr2 : calcRelevance now
        (touchMemory now (pyLower query) (touchMemory now (pyLower query) m))
        (pyLower query) = calcRelevance now m (pyLower query) := by
      rw [calcRelevance_touchMemory, hr1]
    refine ⟨touchMemory now (pyLower query)
        (touchMemory now (pyLower query) (touchMemory now (pyLower query) m)), ?_, ?_, ?_⟩
    · rw [hshort, hshort, hshort, List.get?_map, List.get?_map, List.get?_map, hm]
      rfl
    · rw [touchMemory_of_relevant _ _ _ (by rw [hr2]; exact hrel)]
      dsimp only
      rw [touchMemory_of_relevant _ _ _ (by rw [hr1]; exact hrel)]
      dsimp only
      rw [touchMemory_of_relevant _ _ _ hrel]
    · intro t
      have hac : (touchMemory now (pyLower query)
          (touchMemory now (pyLower query) (touchMemory now (pyLower query) m))).accessCount =
          m.accessCount + 3 := by
        rw [touchMemory_of_relevant _ _ _ (by rw [hr2]; exact hrel)]
        dsimp only
        rw [touchMemory_of_relevant _ _ _ (by rw [hr1]; exact hrel)]
        dsimp only
        rw [touchMemory_of_relevant _ _ _ hrel]
      unfold consolidationCriterion
      rw [hac]
      simp only [Bool.or_eq_true, decide_eq_true_eq]
      left
      right
      omega

/-- Claim C10 witness: three identical searches on a one-memory store whose
memory shares a word with the query push its access count from 0 to 3,
making it consolidation-eligible. -/
theorem C10_witness :
    ∃ m3,
      ((searchMemories 0 "alpha beta" 10 ((searchMemories 0 "alpha beta" 10
          ((searchMemories 0 "alpha beta" 10 searchedStore).2)).2)).2).shortTerm.get? 0 =
        some m3 ∧
      m3.accessCount = searchedMemory.accessCount + 3 ∧
      ∀ t : ℚ, consolidationCriterion t m3 = true :=
  (C10_search_mutates_state 0 "alpha beta" 10 searchedStore (by decide)).2.2 0 searchedMemory
    rfl (by with_unfolding_all decide)

end AiAssistant
